import Mathlib

/-!
Verification of the tubely upload handlers and aspect-ratio classifier.

The development shallowly embeds `src/api/videos.ts` (both copies of
`handlerUploadVideo` and `getVideoAspectRatio`) and
`src/api/thumbnails.ts` (`handlerUploadThumbnail`).  External
collaborators that are not part of the repository sources (the auth
library, the database layer, the object-storage client, the `ffprobe`
process and the `assets.ts` helpers) are modelled from the spec as an
explicit environment value, and JavaScript exceptions are modelled with
`Except`.
-/

/-- Error taxonomy of the handlers: `BadRequestError`, `NotFoundError`,
`UserForbiddenError` and the auth errors from `./errors`, plus the plain
`Error` thrown by `getVideoAspectRatio` (the spec's `ExternalToolError`)
and a persistence failure from `updateVideo`. -/
inductive Err where
  | badRequest (msg : String)
  | unauthorized (msg : String)
  | notFound (msg : String)
  | userForbidden (msg : String)
  | externalTool (msg : String)
  | dbError (msg : String)
deriving Repr, DecidableEq

/-- Video record (spec section 3): identifier, owning user identifier, the
two nullable URL fields, and `meta` standing for the fields owned by the
external database layer. -/
structure VideoRecord where
  id : String
  userID : String
  thumbnailURL : Option String
  videoURL : Option String
  meta : String
deriving Repr, DecidableEq

/-- First-stream entry of the parsed ffprobe JSON: `width`/`height` may be
absent from the JSON object. -/
structure StreamDim where
  width : Option Nat
  height : Option Nat
deriving Repr, DecidableEq

/-- Parsed ffprobe JSON: the `streams` field may be absent. -/
structure FFProbeOut where
  streams : Option (List StreamDim)
deriving Repr, DecidableEq

/-- Outcome of the `ffprobe` invocation: exit code, captured stderr text,
and the result of `JSON.parse` on the captured stdout (`none` when the
output is malformed and `JSON.parse` throws). -/
structure ProbeResult where
  exitCode : Nat
  stderr : String
  stdout : Option FFProbeOut
deriving Repr, DecidableEq

/-- JavaScript truthiness of a JSON number field that may be absent:
`!x` is true exactly when the field is absent or equals `0`.  Mirrors
`!aspectData.width || !aspectData.height` in `getVideoAspectRatio`. -/
def jsTruthy : Option Nat → Bool
  | none => false
  | some n => n != 0

/-- Classification rule of `getVideoAspectRatio` (videos.ts lines
111-121): `adjustedWidth = Math.floor(16 * (width/9))`,
`adjustedHeight = Math.floor(16 * (height/9))`; `landscape` when
`width === adjustedHeight`, else `portrait` when
`height === adjustedWidth`, else `other`.  `Math.floor` of the exact
rational is Nat division. -/
def aspectLabel (width height : Nat) : String :=
  let adjustedWidth := 16 * width / 9
  let adjustedHeight := 16 * height / 9
  if width = adjustedHeight then "landscape"
  else if height = adjustedWidth then "portrait"
  else "other"

/-- Embedding of `getVideoAspectRatio` (videos.ts lines 74-124), applied
to the outcome of the spawned ffprobe process: non-zero exit throws the
captured stderr text; malformed stdout makes `JSON.parse` throw; a
missing or empty `streams` array throws; a falsy `width` or `height` on
the first stream throws; otherwise the label is computed. -/
def getVideoAspectRatio (p : ProbeResult) : Except Err String :=
  if p.exitCode ≠ 0 then .error (.externalTool p.stderr)
  else
    match p.stdout with
    | none => .error (.externalTool "Unexpected token in JSON")
    | some parsed =>
      match parsed.streams with
      | none => .error (.externalTool "Stream data not found.")
      | some [] => .error (.externalTool "Stream data not found.")
      | some (aspectData :: _) =>
        if ¬ jsTruthy aspectData.width ∨ ¬ jsTruthy aspectData.height then
          .error (.externalTool "Missing stream aspect ratio parameter.")
        else
          .ok (aspectLabel (aspectData.width.getD 0) (aspectData.height.getD 0))

example : aspectLabel 1920 1080 = "landscape" := by decide
example : aspectLabel 1080 1920 = "portrait" := by decide
example : aspectLabel 640 480 = "other" := by decide

/-- Configuration (spec section 6): recognized options. The database and
storage clients themselves live in the environment below. -/
structure Cfg where
  jwtSecret : String
  assetsRoot : String
  s3Bucket : String
  publicBaseURL : String
deriving Repr, DecidableEq

/-- Modelled from the spec: `mediaTypeToExt` from `assets.ts` is not under
`src/`.  The spec (section 3) describes a file-extension mapping from the
declared media type with a fixed allow-list of image types; the video
path uses `{videoId}.mp4` for media type `video/mp4`. -/
def mediaTypeToExt (mediaType : String) : String :=
  if mediaType = "video/mp4" then ".mp4"
  else if mediaType = "image/png" then ".png"
  else if mediaType = "image/jpeg" then ".jpeg"
  else if mediaType = "image/gif" then ".gif"
  else if mediaType = "image/webp" then ".webp"
  else ".bin"

/-- Modelled from the spec: `getAssetDiskPath` from `assets.ts` is not
under `src/`.  A path computed from the configured base directory plus
the filename (spec sections 4.1 and 6). -/
def getAssetDiskPath (cfg : Cfg) (filename : String) : String :=
  cfg.assetsRoot ++ "/" ++ filename

/-- Modelled from the spec: `getAssetURL` from `assets.ts` is not under
`src/`.  A locally-served URL built from configuration (public base URL
plus filename, spec section 4.1). -/
def getAssetURL (cfg : Cfg) (filename : String) : String :=
  cfg.publicBaseURL ++ "/" ++ filename

/-- Modelled from the spec: `getS3AssetURL` from `assets.ts` is not under
`src/`.  The object's public URL computed from configuration plus the
storage key (spec sections 4.2 and 6). -/
def getS3AssetURL (cfg : Cfg) (key : String) : String :=
  cfg.s3Bucket ++ "/" ++ key

/-- One object written to the object-storage bucket by
`cfg.s3Client.file(key, {bucket}).write(tempFile, {type})`. -/
structure S3Write where
  bucket : String
  key : String
  contentType : String
  content : String
deriving Repr, DecidableEq

/-- Observable effects of a handler run: the set of local disk paths that
exist, the objects written to object storage, and the records persisted
through `updateVideo`. -/
structure St where
  disk : List String
  s3 : List S3Write
  dbUpdates : List VideoRecord
deriving Repr, DecidableEq

/-- Writing file bytes at a path (`Bun.write`): the path exists afterwards. -/
def diskWrite (disk : List String) (path : String) : List String :=
  if path ∈ disk then disk else path :: disk

/-- Deleting a file at a path (`tempFile.delete()`): the path no longer
exists afterwards. -/
def diskDelete (disk : List String) (path : String) : List String :=
  disk.filter (fun q => q ≠ path)

/-- Modelled from the spec: environment of external collaborators not
under `src/` (section 6).  `auth` is the combined outcome of
`getBearerToken(req.headers)` and `validateJWT(token, cfg.jwtSecret)`
(a user identifier, or a failure of the token-validator's choosing);
`getVideo` is the database lookup; `probe` gives the ffprobe outcome for
a disk path; `updateOk` tells whether `updateVideo` persists or fails
with a persistence error (its success does not depend on the record's
contents). -/
structure Env where
  auth : Except Err String
  getVideo : String → Option VideoRecord
  probe : String → ProbeResult
  updateOk : Bool

/-- The file value obtained from `formData.get(...)` when it is a `File`:
declared size, declared media type (`""` when empty) and content bytes. -/
structure FormFile where
  size : Nat
  type : String
  content : String
deriving Repr, DecidableEq

/-- An upload request: the `videoId` path parameter and the form-data file
field (`none` when the field is missing or not a `File`). -/
structure UploadRequest where
  videoId : Option String
  formFile : Option FormFile
deriving Repr, DecidableEq

/-- A JSON response from `respondWithJSON(status, video)`. -/
structure Response where
  status : Nat
  body : VideoRecord
deriving Repr, DecidableEq

/-- Embedding of `handlerUploadVideo` (videos.ts lines 10-72, the
aspect-prefixed variant): validation sequence, disk write of the uploaded
bytes, aspect classification, object-storage write under the
label-prefixed key, URL assignment, temp-file deletion, then the database
update and the 200 response. -/
def handlerUploadVideo (cfg : Cfg) (env : Env) (req : UploadRequest) (st : St) :
    Except Err Response × St :=
  match req.videoId with
  | none => (.error (.badRequest "Invalid video ID"), st)
  | some videoId =>
    match env.auth with
    | .error e => (.error e, st)
    | .ok userID =>
      match env.getVideo videoId with
      | none => (.error (.notFound "Couldn't find video"), st)
      | some video =>
        if video.userID ≠ userID then
          (.error (.userForbidden "You do not have access to edit this video"), st)
        else
          match req.formFile with
          | none => (.error (.badRequest "Video file missing"), st)
          | some file =>
            if file.size > 1 <<< 30 then
              (.error (.badRequest "Video file size must be < 1GB"), st)
            else if file.type = "" then
              (.error (.badRequest "Missing Content-Type for Video"), st)
            else if file.type ≠ "video/mp4" then
              (.error (.badRequest "Invalid Content-Type for Video"), st)
            else
              let ext := mediaTypeToExt file.type
              let filename := videoId ++ ext
              let assetDiskPath := getAssetDiskPath cfg filename
              let st1 : St := { st with disk := diskWrite st.disk assetDiskPath }
              match getVideoAspectRatio (env.probe assetDiskPath) with
              | .error e => (.error e, st1)
              | .ok aspectRatio =>
                let keyName := aspectRatio ++ "/" ++ filename
                let st2 : St :=
                  { st1 with s3 := st1.s3 ++ [⟨cfg.s3Bucket, keyName, file.type, file.content⟩] }
                let assetURL := getS3AssetURL cfg keyName
                let video2 : VideoRecord := { video with videoURL := some assetURL }
                let st3 : St := { st2 with disk := diskDelete st2.disk assetDiskPath }
                if env.updateOk then
                  (.ok ⟨200, video2⟩, { st3 with dbUpdates := st3.dbUpdates ++ [video2] })
                else
                  (.error (.dbError "Couldn't update video"), st3)

/-- Embedding of the second copy of `handlerUploadVideo` (videos.ts lines
132-190): identical validation and disk write, but no aspect
classification; the storage key and URL use the bare filename. -/
def handlerUploadVideoAlt (cfg : Cfg) (env : Env) (req : UploadRequest) (st : St) :
    Except Err Response × St :=
  match req.videoId with
  | none => (.error (.badRequest "Invalid video ID"), st)
  | some videoId =>
    match env.auth with
    | .error e => (.error e, st)
    | .ok userID =>
      match env.getVideo videoId with
      | none => (.error (.notFound "Couldn't find video"), st)
      | some video =>
        if video.userID ≠ userID then
          (.error (.userForbidden "You do not have access to edit this video"), st)
        else
          match req.formFile with
          | none => (.error (.badRequest "Video file missing"), st)
          | some file =>
            if file.size > 1 <<< 30 then
              (.error (.badRequest "Video file size must be < 1GB"), st)
            else if file.type = "" then
              (.error (.badRequest "Missing Content-Type for Video"), st)
            else if file.type ≠ "video/mp4" then
              (.error (.badRequest "Invalid Content-Type for Video"), st)
            else
              let ext := mediaTypeToExt file.type
              let filename := videoId ++ ext
              let assetDiskPath := getAssetDiskPath cfg filename
              let st1 : St := { st with disk := diskWrite st.disk assetDiskPath }
              let st2 : St :=
                { st1 with s3 := st1.s3 ++ [⟨cfg.s3Bucket, filename, file.type, file.content⟩] }
              let assetURL := getS3AssetURL cfg filename
              let video2 : VideoRecord := { video with videoURL := some assetURL }
              let st3 : St := { st2 with disk := diskDelete st2.disk assetDiskPath }
              if env.updateOk then
                (.ok ⟨200, video2⟩, { st3 with dbUpdates := st3.dbUpdates ++ [video2] })
              else
                (.error (.dbError "Couldn't update video"), st3)

/-- Embedding of `handlerUploadThumbnail` (thumbnails.ts lines 9-55):
validation sequence with the 10 MiB bound and the non-empty media type
check, disk write, thumbnail URL assignment, database update, 200
response. -/
def handlerUploadThumbnail (cfg : Cfg) (env : Env) (req : UploadRequest) (st : St) :
    Except Err Response × St :=
  match req.videoId with
  | none => (.error (.badRequest "Invalid video ID"), st)
  | some videoId =>
    match env.auth with
    | .error e => (.error e, st)
    | .ok userID =>
      match env.getVideo videoId with
      | none => (.error (.notFound "Couldn't find video"), st)
      | some video =>
        if video.userID ≠ userID then
          (.error (.userForbidden "You do not have access to edit this video"), st)
        else
          match req.formFile with
          | none => (.error (.badRequest "Thumbnail file missing"), st)
          | some file =>
            if file.size > 10 <<< 20 then
              (.error (.badRequest "Thumbnail file size must be < 10MB"), st)
            else if file.type = "" then
              (.error (.badRequest "Missing Content-Type for thumbnail"), st)
            else
              let ext := mediaTypeToExt file.type
              let filename := videoId ++ ext
              let assetDiskPath := getAssetDiskPath cfg filename
              let st1 : St := { st with disk := diskWrite st.disk assetDiskPath }
              let assetURL := getAssetURL cfg filename
              let video2 : VideoRecord := { video with thumbnailURL := some assetURL }
              if env.updateOk then
                (.ok ⟨200, video2⟩, { st1 with dbUpdates := st1.dbUpdates ++ [video2] })
              else
                (.error (.dbError "Couldn't update video"), st1)

/-- A probe outcome that exited 0 and reported exactly one stream of the
given width and height. -/
def probeFor (w h : Nat) : ProbeResult :=
  ⟨0, "", some ⟨some [⟨some w, some h⟩]⟩⟩

/-- Failure condition enumerated by claim C8: the probing process exited
non-zero, or its output is malformed, or no stream entries are present,
or the first stream lacks a width or height (the source's truthiness
test: the field is absent or zero). -/
def probeFailCond (p : ProbeResult) : Bool :=
  p.exitCode != 0 ||
    (match p.stdout with
     | none => true
     | some parsed =>
       match parsed.streams with
       | none => true
       | some [] => true
       | some (s :: _) => !(jsTruthy s.width) || !(jsTruthy s.height))

/-- Concrete configuration for witnesses and counterexamples. -/
def cfg0 : Cfg := ⟨"secret", "assets", "bucket", "http://localhost:8091"⟩

/-- Concrete video record owned by `alice`. -/
def video0 : VideoRecord := ⟨"v1", "alice", none, none, "m"⟩

/-- Environment where auth succeeds as `alice`, the lookup finds `video0`,
ffprobe reports one 1920x1080 stream, and persistence succeeds. -/
def goodEnv : Env := ⟨.ok "alice", fun _ => some video0, fun _ => probeFor 1920 1080, true⟩

/-- Environment where the bearer token is invalid. -/
def badAuthEnv : Env := { goodEnv with auth := .error (.unauthorized "Invalid token") }

/-- Environment where the probing process fails with exit code 1. -/
def probeFailEnv : Env := { goodEnv with probe := fun _ => ⟨1, "boom", none⟩ }

/-- Environment where auth succeeds as `bob`, who does not own `video0`. -/
def bobEnv : Env := { goodEnv with auth := .ok "bob" }

/-- A request uploading an mp4 file. -/
def mp4Req : UploadRequest := ⟨some "v1", some ⟨5, "video/mp4", "DATA"⟩⟩

/-- A request uploading a webm file. -/
def webmReq : UploadRequest := ⟨some "v1", some ⟨5, "video/webm", "DATA"⟩⟩

/-- A request uploading a small png thumbnail. -/
def thumbReq : UploadRequest := ⟨some "v1", some ⟨5, "image/png", "IMG"⟩⟩

/-- A request uploading a thumbnail one byte over 10 MiB. -/
def bigThumbReq : UploadRequest := ⟨some "v1", some ⟨10485761, "image/png", "IMG"⟩⟩

/-- A request uploading a thumbnail of exactly 10 MiB. -/
def exactThumbReq : UploadRequest := ⟨some "v1", some ⟨10485760, "image/png", "IMG"⟩⟩

/-- The empty starting state. -/
def st0 : St := ⟨[], [], []⟩

/-- Does the handler outcome carry a `BadRequestError`? -/
def isBadRequestResult : Except Err Response → Bool
  | .error (.badRequest _) => true
  | _ => false

theorem mediaTypeToExt_mp4 : mediaTypeToExt "video/mp4" = ".mp4" := by rfl

/-- Forward evaluation of the aspect-prefixed video handler on the
success path. -/
theorem video_eval (cfg : Cfg) (env : Env) (req : UploadRequest) (st : St)
    (vid userID : String) (video : VideoRecord) (file : FormFile) (label : String)
    (hvid : req.videoId = some vid)
    (hauth : env.auth = .ok userID)
    (hget : env.getVideo vid = some video)
    (howner : video.userID = userID)
    (hfile : req.formFile = some file)
    (hsize : ¬ file.size > 1 <<< 30)
    (htype : file.type = "video/mp4")
    (hcl : getVideoAspectRatio (env.probe (getAssetDiskPath cfg (vid ++ ".mp4"))) =
      .ok label)
    (hupd : env.updateOk = true) :
    handlerUploadVideo cfg env req st =
      (.ok ⟨200, { video with
          videoURL := some (getS3AssetURL cfg (label ++ "/" ++ (vid ++ ".mp4"))) }⟩,
       ⟨diskDelete (diskWrite st.disk (getAssetDiskPath cfg (vid ++ ".mp4")))
          (getAssetDiskPath cfg (vid ++ ".mp4")),
        st.s3 ++ [⟨cfg.s3Bucket, label ++ "/" ++ (vid ++ ".mp4"), file.type, file.content⟩],
        st.dbUpdates ++ [{ video with
          videoURL := some (getS3AssetURL cfg (label ++ "/" ++ (vid ++ ".mp4"))) }]⟩) := by
  have hsize' : file.size ≤ 1073741824 := Nat.le_of_not_lt hsize
  simp [handlerUploadVideo, hvid, hauth, hget, hfile, howner, hsize', htype,
    mediaTypeToExt_mp4, hcl, hupd]

/-- Forward evaluation of the unprefixed video handler variant on the
success path. -/
theorem video_alt_eval (cfg : Cfg) (env : Env) (req : UploadRequest) (st : St)
    (vid userID : String) (video : VideoRecord) (file : FormFile)
    (hvid : req.videoId = some vid)
    (hauth : env.auth = .ok userID)
    (hget : env.getVideo vid = some video)
    (howner : video.userID = userID)
    (hfile : req.formFile = some file)
    (hsize : ¬ file.size > 1 <<< 30)
    (htype : file.type = "video/mp4")
    (hupd : env.updateOk = true) :
    handlerUploadVideoAlt cfg env req st =
      (.ok ⟨200, { video with videoURL := some (getS3AssetURL cfg (vid ++ ".mp4")) }⟩,
       ⟨diskDelete (diskWrite st.disk (getAssetDiskPath cfg (vid ++ ".mp4")))
          (getAssetDiskPath cfg (vid ++ ".mp4")),
        st.s3 ++ [⟨cfg.s3Bucket, vid ++ ".mp4", file.type, file.content⟩],
        st.dbUpdates ++ [{ video with
          videoURL := some (getS3AssetURL cfg (vid ++ ".mp4")) }]⟩) := by
  have hsize' : file.size ≤ 1073741824 := Nat.le_of_not_lt hsize
  simp [handlerUploadVideoAlt, hvid, hauth, hget, hfile, howner, hsize', htype,
    mediaTypeToExt_mp4, hupd]

/-- Forward evaluation of the video handler when the classifier fails:
the error propagates and the temp file stays on disk. -/
theorem video_eval_classFail (cfg : Cfg) (env : Env) (req : UploadRequest) (st : St)
    (vid userID : String) (video : VideoRecord) (file : FormFile) (e : Err)
    (hvid : req.videoId = some vid)
    (hauth : env.auth = .ok userID)
    (hget : env.getVideo vid = some video)
    (howner : video.userID = userID)
    (hfile : req.formFile = some file)
    (hsize : ¬ file.size > 1 <<< 30)
    (htype : file.type = "video/mp4")
    (hcl : getVideoAspectRatio (env.probe (getAssetDiskPath cfg (vid ++ ".mp4"))) =
      .error e) :
    handlerUploadVideo cfg env req st =
      (.error e,
       ⟨diskWrite st.disk (getAssetDiskPath cfg (vid ++ ".mp4")), st.s3, st.dbUpdates⟩) := by
  have hsize' : file.size ≤ 1073741824 := Nat.le_of_not_lt hsize
  simp [handlerUploadVideo, hvid, hauth, hget, hfile, howner, hsize', htype,
    mediaTypeToExt_mp4, hcl]

/-- Forward evaluation of the video handler when the database update
fails: the temp file was already deleted before the update. -/
theorem video_eval_updateFail (cfg : Cfg) (env : Env) (req : UploadRequest) (st : St)
    (vid userID : String) (video : VideoRecord) (file : FormFile) (label : String)
    (hvid : req.videoId = some vid)
    (hauth : env.auth = .ok userID)
    (hget : env.getVideo vid = some video)
    (howner : video.userID = userID)
    (hfile : req.formFile = some file)
    (hsize : ¬ file.size > 1 <<< 30)
    (htype : file.type = "video/mp4")
    (hcl : getVideoAspectRatio (env.probe (getAssetDiskPath cfg (vid ++ ".mp4"))) =
      .ok label)
    (hupd : env.updateOk = false) :
    handlerUploadVideo cfg env req st =
      (.error (.dbError "Couldn't update video"),
       ⟨diskDelete (diskWrite st.disk (getAssetDiskPath cfg (vid ++ ".mp4")))
          (getAssetDiskPath cfg (vid ++ ".mp4")),
        st.s3 ++ [⟨cfg.s3Bucket, label ++ "/" ++ (vid ++ ".mp4"), file.type, file.content⟩],
        st.dbUpdates⟩) := by
  have hsize' : file.size ≤ 1073741824 := Nat.le_of_not_lt hsize
  simp [handlerUploadVideo, hvid, hauth, hget, hfile, howner, hsize', htype,
    mediaTypeToExt_mp4, hcl, hupd]

/-- Forward evaluation of the thumbnail handler on the success path. -/
theorem thumb_eval (cfg : Cfg) (env : Env) (req : UploadRequest) (st : St)
    (vid userID : String) (video : VideoRecord) (file : FormFile)
    (hvid : req.videoId = some vid)
    (hauth : env.auth = .ok userID)
    (hget : env.getVideo vid = some video)
    (howner : video.userID = userID)
    (hfile : req.formFile = some file)
    (hsize : ¬ file.size > 10 <<< 20)
    (hempty : file.type ≠ "")
    (hupd : env.updateOk = true) :
    handlerUploadThumbnail cfg env req st =
      (.ok ⟨200, { video with
          thumbnailURL := some (getAssetURL cfg (vid ++ mediaTypeToExt file.type)) }⟩,
       ⟨diskWrite st.disk (getAssetDiskPath cfg (vid ++ mediaTypeToExt file.type)),
        st.s3,
        st.dbUpdates ++ [{ video with
          thumbnailURL := some (getAssetURL cfg (vid ++ mediaTypeToExt file.type)) }]⟩) := by
  have hsize' : file.size ≤ 10485760 := Nat.le_of_not_lt hsize
  simp [handlerUploadThumbnail, hvid, hauth, hget, hfile, howner, hsize', hempty, hupd]

/-- Inversion of the aspect-prefixed video handler: a successful run pins
down every guard, the classifier label, the response and the final
state. -/
theorem video_ok_inv (cfg : Cfg) (env : Env) (req : UploadRequest) (st : St)
    (resp : Response) (hok : (handlerUploadVideo cfg env req st).1 = .ok resp) :
    ∃ vid userID video file label,
      req.videoId = some vid ∧ env.auth = .ok userID ∧
      env.getVideo vid = some video ∧ video.userID = userID ∧
      req.formFile = some file ∧ ¬ file.size > 1 <<< 30 ∧
      file.type = "video/mp4" ∧
      getVideoAspectRatio (env.probe (getAssetDiskPath cfg (vid ++ ".mp4"))) = .ok label ∧
      env.updateOk = true ∧
      resp = ⟨200, { video with
        videoURL := some (getS3AssetURL cfg (label ++ "/" ++ (vid ++ ".mp4"))) }⟩ ∧
      (handlerUploadVideo cfg env req st).2 =
        ⟨diskDelete (diskWrite st.disk (getAssetDiskPath cfg (vid ++ ".mp4")))
           (getAssetDiskPath cfg (vid ++ ".mp4")),
         st.s3 ++ [⟨cfg.s3Bucket, label ++ "/" ++ (vid ++ ".mp4"), file.type, file.content⟩],
         st.dbUpdates ++ [resp.body]⟩ := by
  unfold handlerUploadVideo at hok
  split at hok
  · exact absurd hok (by simp)
  rename_i vid hvid
  split at hok
  · exact absurd hok (by simp)
  rename_i userID hauth
  split at hok
  · exact absurd hok (by simp)
  rename_i video hget
  split at hok
  · exact absurd hok (by simp)
  rename_i howner
  rw [not_not] at howner
  split at hok
  · exact absurd hok (by simp)
  rename_i file hfile
  split at hok
  · exact absurd hok (by simp)
  rename_i hsize
  split at hok
  · exact absurd hok (by simp)
  rename_i hempty
  split at hok
  · exact absurd hok (by simp)
  rename_i htype
  rw [not_not] at htype
  rw [htype, mediaTypeToExt_mp4] at hok
  simp only [] at hok
  split at hok
  · exact absurd hok (by simp)
  rename_i label hcl
  split at hok
  · rename_i hupd
    have hresp : resp = ⟨200, { video with
        videoURL := some (getS3AssetURL cfg (label ++ "/" ++ (vid ++ ".mp4"))) }⟩ := by
      simpa using hok.symm
    refine ⟨vid, userID, video, file, label, hvid, hauth, hget, howner, hfile, hsize,
      htype, hcl, hupd, hresp, ?_⟩
    rw [video_eval cfg env req st vid userID video file label hvid hauth hget howner
      hfile hsize htype hcl hupd, hresp]
  · exact absurd hok (by simp)

/-- Inversion of the thumbnail handler: a successful run pins down every
guard, the response and the final state. -/
theorem thumb_ok_inv (cfg : Cfg) (env : Env) (req : UploadRequest) (st : St)
    (resp : Response) (hok : (handlerUploadThumbnail cfg env req st).1 = .ok resp) :
    ∃ vid userID video file,
      req.videoId = some vid ∧ env.auth = .ok userID ∧
      env.getVideo vid = some video ∧ video.userID = userID ∧
      req.formFile = some file ∧ ¬ file.size > 10 <<< 20 ∧
      file.type ≠ "" ∧ env.updateOk = true ∧
      resp = ⟨200, { video with
        thumbnailURL := some (getAssetURL cfg (vid ++ mediaTypeToExt file.type)) }⟩ ∧
      (handlerUploadThumbnail cfg env req st).2 =
        ⟨diskWrite st.disk (getAssetDiskPath cfg (vid ++ mediaTypeToExt file.type)),
         st.s3, st.dbUpdates ++ [resp.body]⟩ := by
  unfold handlerUploadThumbnail at hok
  split at hok
  · exact absurd hok (by simp)
  rename_i vid hvid
  split at hok
  · exact absurd hok (by simp)
  rename_i userID hauth
  split at hok
  · exact absurd hok (by simp)
  rename_i video hget
  split at hok
  · exact absurd hok (by simp)
  rename_i howner
  rw [not_not] at howner
  split at hok
  · exact absurd hok (by simp)
  rename_i file hfile
  split at hok
  · exact absurd hok (by simp)
  rename_i hsize
  split at hok
  · exact absurd hok (by simp)
  rename_i hempty
  simp only [] at hok
  split at hok
  · rename_i hupd
    have hresp : resp = ⟨200, { video with
        thumbnailURL := some (getAssetURL cfg (vid ++ mediaTypeToExt file.type)) }⟩ := by
      simpa using hok.symm
    refine ⟨vid, userID, video, file, hvid, hauth, hget, howner, hfile, hsize,
      hempty, hupd, hresp, ?_⟩
    rw [thumb_eval cfg env req st vid userID video file hvid hauth hget howner
      hfile hsize hempty hupd, hresp]
  · exact absurd hok (by simp)

theorem aspectLabel_mem (w h : Nat) :
    aspectLabel w h = "landscape" ∨ aspectLabel w h = "portrait" ∨
      aspectLabel w h = "other" := by
  simp only [aspectLabel]
  split_ifs <;> simp

/-- C1: for every probe result whose first stream has width `w` and
height `h` (present and non-zero, the source's truthiness test), the
classifier returns `landscape` if `w = 16 * h / 9` (floor), else
`portrait` if `h = 16 * w / 9`, else `other`; and no invocation of the
classifier ever returns any other label. -/
theorem aspect_rule_exact (w h : Nat) (hw : w ≠ 0) (hh : h ≠ 0)
    (errText : String) (rest : List StreamDim) :
    getVideoAspectRatio ⟨0, errText, some ⟨some (⟨some w, some h⟩ :: rest)⟩⟩ =
      .ok (if w = 16 * h / 9 then "landscape"
           else if h = 16 * w / 9 then "portrait" else "other")
    ∧ (∀ p s, getVideoAspectRatio p = .ok s →
        s = "landscape" ∨ s = "portrait" ∨ s = "other") := by
  constructor
  · simp [getVideoAspectRatio, jsTruthy, hw, hh, aspectLabel]
  · intro p s hps
    unfold getVideoAspectRatio at hps
    split at hps
    · exact absurd hps (by simp)
    · split at hps
      · exact absurd hps (by simp)
      · split at hps
        · exact absurd hps (by simp)
        · exact absurd hps (by simp)
        · split at hps
          · exact absurd hps (by simp)
          · rw [show s = aspectLabel _ _ from (Except.ok.injEq _ _ ▸ hps).symm]
            exact aspectLabel_mem _ _

/-- Witness for C1 at width 1920, height 1080. -/
theorem aspect_rule_exact_witness :
    getVideoAspectRatio ⟨0, "", some ⟨some [⟨some 1920, some 1080⟩]⟩⟩ =
      .ok (if 1920 = 16 * 1080 / 9 then "landscape"
           else if 1080 = 16 * 1920 / 9 then "portrait" else "other") :=
  (aspect_rule_exact 1920 1080 (by decide) (by decide) "" []).1

/-- C2: under the source's comparison rule the classifier maps 1920x1080
to `landscape`, 1080x1920 to `portrait`, and 640x480 to `other`. -/
theorem classifier_concrete_labels :
    getVideoAspectRatio (probeFor 1920 1080) = .ok "landscape" ∧
    getVideoAspectRatio (probeFor 1080 1920) = .ok "portrait" ∧
    getVideoAspectRatio (probeFor 640 480) = .ok "other" := by
  refine ⟨?_, ?_, ?_⟩ <;> rfl

/-- C8: the classifier fails exactly when the probing process exits
non-zero (and then with the captured stderr text), or its output is
malformed, or no stream entries are present, or the first stream lacks a
width or height (absent or zero); in every other case it returns one of
the three labels. -/
theorem classifier_error_iff (p : ProbeResult) :
    ((∃ e, getVideoAspectRatio p = .error e) ↔ probeFailCond p = true)
    ∧ (p.exitCode ≠ 0 → getVideoAspectRatio p = .error (.externalTool p.stderr))
    ∧ (probeFailCond p = false →
        ∃ s, getVideoAspectRatio p = .ok s ∧
          (s = "landscape" ∨ s = "portrait" ∨ s = "other")) := by
  refine ⟨?_, ?_, ?_⟩
  · obtain ⟨ec, errText, stdout⟩ := p
    by_cases hec : ec = 0
    · subst hec
      cases stdout with
      | none => simp [getVideoAspectRatio, probeFailCond]
      | some parsed =>
        obtain ⟨streams⟩ := parsed
        cases streams with
        | none => simp [getVideoAspectRatio, probeFailCond]
        | some l =>
          cases l with
          | nil => simp [getVideoAspectRatio, probeFailCond]
          | cons s rest =>
            by_cases hw : jsTruthy s.width
            · by_cases hh : jsTruthy s.height
              · simp [getVideoAspectRatio, probeFailCond, hw, hh]
              · simp [getVideoAspectRatio, probeFailCond, hw, hh]
            · simp [getVideoAspectRatio, probeFailCond, hw]
    · simp [getVideoAspectRatio, probeFailCond, hec]
  · intro hexit
    unfold getVideoAspectRatio
    simp [hexit]
  · intro hok
    obtain ⟨ec, errText, stdout⟩ := p
    unfold probeFailCond at hok
    simp only [Bool.or_eq_false_iff] at hok
    obtain ⟨hexit, hrest⟩ := hok
    simp only [bne_eq_false_iff_eq] at hexit
    subst hexit
    cases stdout with
    | none => simp at hrest
    | some parsed =>
      obtain ⟨streams⟩ := parsed
      cases streams with
      | none => simp at hrest
      | some l =>
        cases l with
        | nil => simp at hrest
        | cons s rest =>
          simp at hrest
          refine ⟨aspectLabel (s.width.getD 0) (s.height.getD 0), ?_,
            aspectLabel_mem _ _⟩
          simp [getVideoAspectRatio, hrest.1, hrest.2]

/-- Witness for C8: a clean 1920x1080 probe yields a label, and an exit
code of 1 yields the captured stderr text as the error. -/
theorem classifier_error_iff_witness :
    (∃ s, getVideoAspectRatio (probeFor 1920 1080) = .ok s ∧
      (s = "landscape" ∨ s = "portrait" ∨ s = "other")) ∧
    getVideoAspectRatio ⟨1, "boom", none⟩ = .error (.externalTool "boom") := by
  constructor
  · exact (classifier_error_iff (probeFor 1920 1080)).2.2 (by decide)
  · exact (classifier_error_iff ⟨1, "boom", none⟩).2.1 (by decide)

/-- C3 is refuted as stated: with an invalid bearer token and a non-mp4
file, the video handler fails with the token validator's error
(Unauthorized), not with BadRequest, because auth is checked before the
media type. -/
theorem video_bad_type_400_counterexample :
    webmReq.formFile = some ⟨5, "video/webm", "DATA"⟩ ∧
    ("video/webm" : String) ≠ "video/mp4" ∧
    (handlerUploadVideo cfg0 badAuthEnv webmReq st0).1 =
      .error (.unauthorized "Invalid token") ∧
    isBadRequestResult (handlerUploadVideo cfg0 badAuthEnv webmReq st0).1 = false :=
  ⟨rfl, by decide, rfl, rfl⟩

/-- C3 (amended): when the earlier checks pass (videoId present, bearer
token valid, video found, owner matches, a video file present), a
declared media type other than `video/mp4` makes the video handler fail
with BadRequest, whatever the declared size. -/
theorem video_bad_type_400 (cfg : Cfg) (env : Env) (req : UploadRequest) (st : St)
    (vid userID : String) (video : VideoRecord) (file : FormFile)
    (hvid : req.videoId = some vid)
    (hauth : env.auth = .ok userID)
    (hget : env.getVideo vid = some video)
    (howner : video.userID = userID)
    (hfile : req.formFile = some file)
    (htype : file.type ≠ "video/mp4") :
    ∃ msg, (handlerUploadVideo cfg env req st).1 = .error (.badRequest msg) := by
  by_cases hsize : file.size > 1 <<< 30
  · have hsize' : file.size > 1073741824 := hsize
    exact ⟨"Video file size must be < 1GB",
      by simp [handlerUploadVideo, hvid, hauth, hget, howner, hfile, hsize']⟩
  · have hns : ¬ (1073741824 < file.size) := hsize
    by_cases hempty : file.type = ""
    · exact ⟨"Missing Content-Type for Video",
        by simp [handlerUploadVideo, hvid, hauth, hget, howner, hfile, hns, hempty]⟩
    · exact ⟨"Invalid Content-Type for Video",
        by simp [handlerUploadVideo, hvid, hauth, hget, howner, hfile, hns, hempty, htype]⟩

/-- Witness for the amended C3: a webm upload with a valid token fails
with BadRequest. -/
theorem video_bad_type_400_witness :
    ∃ msg, (handlerUploadVideo cfg0 goodEnv webmReq st0).1 = .error (.badRequest msg) :=
  video_bad_type_400 cfg0 goodEnv webmReq st0 "v1" "alice" video0
    ⟨5, "video/webm", "DATA"⟩ rfl rfl rfl rfl rfl (by decide)

/-- C4 is refuted as stated: when the aspect-ratio classification fails,
the handler exits with the written temp file still on disk. -/
theorem temp_cleanup_counterexample :
    (handlerUploadVideo cfg0 probeFailEnv mp4Req st0).1 =
      .error (.externalTool "boom") ∧
    (handlerUploadVideo cfg0 probeFailEnv mp4Req st0).2.disk = ["assets/v1.mp4"] :=
  ⟨rfl, rfl⟩

/-- C4 (amended): once the uploaded bytes are written, the temp file is
deleted when the classification succeeds — both on the success path and
when the database update fails, since deletion precedes the update — but
when the aspect-ratio classification fails the handler exits with the
temp file still on disk. -/
theorem temp_cleanup (cfg : Cfg) (env : Env) (req : UploadRequest) (st : St)
    (vid userID : String) (video : VideoRecord) (file : FormFile)
    (hvid : req.videoId = some vid)
    (hauth : env.auth = .ok userID)
    (hget : env.getVideo vid = some video)
    (howner : video.userID = userID)
    (hfile : req.formFile = some file)
    (hsize : ¬ file.size > 1 <<< 30)
    (htype : file.type = "video/mp4") :
    (∀ label, getVideoAspectRatio (env.probe (getAssetDiskPath cfg (vid ++ ".mp4"))) =
        .ok label →
      getAssetDiskPath cfg (vid ++ ".mp4") ∉ (handlerUploadVideo cfg env req st).2.disk)
    ∧ (∀ e, getVideoAspectRatio (env.probe (getAssetDiskPath cfg (vid ++ ".mp4"))) =
        .error e →
      (handlerUploadVideo cfg env req st).1 = .error e ∧
      getAssetDiskPath cfg (vid ++ ".mp4") ∈ (handlerUploadVideo cfg env req st).2.disk) := by
  constructor
  · intro label hcl
    cases hupd : env.updateOk with
    | true =>
      rw [video_eval cfg env req st vid userID video file label hvid hauth hget howner
        hfile hsize htype hcl hupd]
      simp [diskDelete]
    | false =>
      rw [video_eval_updateFail cfg env req st vid userID video file label hvid hauth hget
        howner hfile hsize htype hcl hupd]
      simp [diskDelete]
  · intro e hcl
    rw [video_eval_classFail cfg env req st vid userID video file e hvid hauth hget howner
      hfile hsize htype hcl]
    refine ⟨rfl, ?_⟩
    by_cases hmem : getAssetDiskPath cfg (vid ++ ".mp4") ∈ st.disk <;>
      simp [diskWrite, hmem]

/-- Witness for the amended C4: after a successful upload the temp file
no longer exists on disk. -/
theorem temp_cleanup_witness :
    getAssetDiskPath cfg0 ("v1" ++ ".mp4") ∉
      (handlerUploadVideo cfg0 goodEnv mp4Req st0).2.disk :=
  (temp_cleanup cfg0 goodEnv mp4Req st0 "v1" "alice" video0 ⟨5, "video/mp4", "DATA"⟩
    rfl rfl rfl rfl rfl (by decide) rfl).1 "landscape" rfl

/-- C5: every successful run of the aspect-prefixed video handler uses
the storage key `{label}/{videoId}.mp4` for the object-storage write and
persists a video URL computed from configuration plus that same key. -/
theorem s3_key_and_url (cfg : Cfg) (env : Env) (req : UploadRequest) (st : St)
    (vid : String) (file : FormFile) (resp : Response)
    (hvid : req.videoId = some vid)
    (hfile : req.formFile = some file)
    (hok : (handlerUploadVideo cfg env req st).1 = .ok resp) :
    ∃ label,
      getVideoAspectRatio (env.probe (getAssetDiskPath cfg (vid ++ ".mp4"))) = .ok label ∧
      (handlerUploadVideo cfg env req st).2.s3 =
        st.s3 ++ [⟨cfg.s3Bucket, label ++ "/" ++ (vid ++ ".mp4"), file.type, file.content⟩] ∧
      resp.body.videoURL = some (getS3AssetURL cfg (label ++ "/" ++ (vid ++ ".mp4"))) ∧
      (handlerUploadVideo cfg env req st).2.dbUpdates = st.dbUpdates ++ [resp.body] := by
  obtain ⟨vid', userID, video, file', label, hvid', hauth, hget, howner, hfile', hsize,
    htype, hcl, hupd, hresp, hst⟩ := video_ok_inv cfg env req st resp hok
  rw [hvid] at hvid'
  injection hvid' with hv
  subst hv
  rw [hfile] at hfile'
  injection hfile' with hf
  subst hf
  subst hresp
  exact ⟨label, hcl, by rw [hst], rfl, by rw [hst]⟩

/-- Witness for C5 on a concrete successful 1920x1080 upload. -/
theorem s3_key_and_url_witness :
    ∃ label,
      getVideoAspectRatio (goodEnv.probe (getAssetDiskPath cfg0 ("v1" ++ ".mp4"))) =
        .ok label ∧
      (handlerUploadVideo cfg0 goodEnv mp4Req st0).2.s3 =
        st0.s3 ++ [⟨cfg0.s3Bucket, label ++ "/" ++ ("v1" ++ ".mp4"), "video/mp4", "DATA"⟩] ∧
      (some (getS3AssetURL cfg0 ("landscape" ++ "/" ++ ("v1" ++ ".mp4"))) : Option String) =
        some (getS3AssetURL cfg0 (label ++ "/" ++ ("v1" ++ ".mp4"))) ∧
      (handlerUploadVideo cfg0 goodEnv mp4Req st0).2.dbUpdates =
        st0.dbUpdates ++ [{ video0 with
          videoURL := some (getS3AssetURL cfg0 ("landscape" ++ "/" ++ ("v1" ++ ".mp4"))) }] :=
  s3_key_and_url cfg0 goodEnv mp4Req st0 "v1" ⟨5, "video/mp4", "DATA"⟩
    ⟨200, { video0 with
      videoURL := some (getS3AssetURL cfg0 ("landscape" ++ "/" ++ ("v1" ++ ".mp4"))) }⟩
    rfl rfl rfl

/-- C6: when the record's owner differs from the authenticated user, both
handlers fail with UserForbiddenError and leave the state untouched: no
disk write, no object-storage write, no persisted record. -/
theorem forbidden_no_write (cfg : Cfg) (env : Env) (req : UploadRequest) (st : St)
    (vid userID : String) (video : VideoRecord)
    (hvid : req.videoId = some vid)
    (hauth : env.auth = .ok userID)
    (hget : env.getVideo vid = some video)
    (howner : video.userID ≠ userID) :
    handlerUploadThumbnail cfg env req st =
      (.error (.userForbidden "You do not have access to edit this video"), st) ∧
    handlerUploadVideo cfg env req st =
      (.error (.userForbidden "You do not have access to edit this video"), st) := by
  constructor
  · simp [handlerUploadThumbnail, hvid, hauth, hget, howner]
  · simp [handlerUploadVideo, hvid, hauth, hget, howner]

/-- Witness for C6: user bob cannot edit the video owned by alice. -/
theorem forbidden_no_write_witness :
    handlerUploadThumbnail cfg0 bobEnv mp4Req st0 =
      (.error (.userForbidden "You do not have access to edit this video"), st0) ∧
    handlerUploadVideo cfg0 bobEnv mp4Req st0 =
      (.error (.userForbidden "You do not have access to edit this video"), st0) :=
  forbidden_no_write cfg0 bobEnv mp4Req st0 "v1" "bob" video0 rfl rfl rfl (by decide)

/-- C7: when the earlier checks pass, the thumbnail handler fails with
the size BadRequest exactly when the file exceeds 10 MiB (10 * 2^20
bytes); in particular a file of exactly 10 MiB passes the size check. -/
theorem thumbnail_size_iff (cfg : Cfg) (env : Env) (req : UploadRequest) (st : St)
    (vid userID : String) (video : VideoRecord) (file : FormFile)
    (hvid : req.videoId = some vid)
    (hauth : env.auth = .ok userID)
    (hget : env.getVideo vid = some video)
    (howner : video.userID = userID)
    (hfile : req.formFile = some file) :
    (handlerUploadThumbnail cfg env req st).1 =
        .error (.badRequest "Thumbnail file size must be < 10MB")
      ↔ file.size > 10 * 2 ^ 20 := by
  have hb : (10 * 2 ^ 20 : Nat) = 10485760 := by norm_num
  rw [hb]
  constructor
  · intro h
    by_contra hsize
    have hns : ¬ (10485760 < file.size) := hsize
    by_cases hempty : file.type = ""
    · simp [handlerUploadThumbnail, hvid, hauth, hget, howner, hfile, hns,
        hempty] at h
    · cases hupd : env.updateOk with
      | true =>
        simp [handlerUploadThumbnail, hvid, hauth, hget, howner, hfile, hns,
          hempty, hupd] at h
      | false =>
        simp [handlerUploadThumbnail, hvid, hauth, hget, howner, hfile, hns,
          hempty, hupd] at h
  · intro hsize
    simp [handlerUploadThumbnail, hvid, hauth, hget, howner, hfile, hsize]

/-- Witness for C7: one byte over 10 MiB is rejected, exactly 10 MiB is
not rejected by the size check. -/
theorem thumbnail_size_iff_witness :
    (handlerUploadThumbnail cfg0 goodEnv bigThumbReq st0).1 =
      .error (.badRequest "Thumbnail file size must be < 10MB") ∧
    ¬ (handlerUploadThumbnail cfg0 goodEnv exactThumbReq st0).1 =
      .error (.badRequest "Thumbnail file size must be < 10MB") := by
  constructor
  · exact (thumbnail_size_iff cfg0 goodEnv bigThumbReq st0 "v1" "alice" video0
      ⟨10485761, "image/png", "IMG"⟩ rfl rfl rfl rfl rfl).2 (by norm_num)
  · intro h
    have := (thumbnail_size_iff cfg0 goodEnv exactThumbReq st0 "v1" "alice" video0
      ⟨10485760, "image/png", "IMG"⟩ rfl rfl rfl rfl rfl).1 h
    norm_num at this

/-- C9: on every input where the aspect-prefixed variant succeeds, the
unprefixed variant succeeds too, with the same status and persisted
record except that its storage key and video URL use `{videoId}.mp4`
without the label prefix, and it cannot fail with a classifier error. -/
theorem variant_equivalence (cfg : Cfg) (env : Env) (req : UploadRequest) (st : St)
    (vid : String) (file : FormFile) (resp : Response)
    (hvid : req.videoId = some vid)
    (hfile : req.formFile = some file)
    (hok : (handlerUploadVideo cfg env req st).1 = .ok resp) :
    handlerUploadVideoAlt cfg env req st =
      (.ok ⟨resp.status,
         { resp.body with videoURL := some (getS3AssetURL cfg (vid ++ ".mp4")) }⟩,
       ⟨(handlerUploadVideo cfg env req st).2.disk,
        st.s3 ++ [⟨cfg.s3Bucket, vid ++ ".mp4", file.type, file.content⟩],
        st.dbUpdates ++ [{ resp.body with
          videoURL := some (getS3AssetURL cfg (vid ++ ".mp4")) }]⟩)
    ∧ ∀ msg, (handlerUploadVideoAlt cfg env req st).1 ≠ .error (.externalTool msg) := by
  obtain ⟨vid', userID, video, file', label, hvid', hauth, hget, howner, hfile', hsize,
    htype, hcl, hupd, hresp, hst⟩ := video_ok_inv cfg env req st resp hok
  rw [hvid] at hvid'
  injection hvid' with hv
  subst hv
  rw [hfile] at hfile'
  injection hfile' with hf
  subst hf
  subst hresp
  have halt := video_alt_eval cfg env req st vid userID video file hvid hauth hget howner
    hfile hsize htype hupd
  refine ⟨?_, ?_⟩
  · rw [halt, hst]
  · intro msg
    rw [halt]
    simp

/-- Witness for C9 on a concrete successful 1920x1080 upload. -/
theorem variant_equivalence_witness :
    handlerUploadVideoAlt cfg0 goodEnv mp4Req st0 =
      (.ok ⟨200, { video0 with videoURL := some (getS3AssetURL cfg0 ("v1" ++ ".mp4")) }⟩,
       ⟨(handlerUploadVideo cfg0 goodEnv mp4Req st0).2.disk,
        st0.s3 ++ [⟨cfg0.s3Bucket, "v1" ++ ".mp4", "video/mp4", "DATA"⟩],
        st0.dbUpdates ++ [{ video0 with
          videoURL := some (getS3AssetURL cfg0 ("v1" ++ ".mp4")) }]⟩)
    ∧ ∀ msg, (handlerUploadVideoAlt cfg0 goodEnv mp4Req st0).1 ≠
        .error (.externalTool msg) :=
  variant_equivalence cfg0 goodEnv mp4Req st0 "v1" ⟨5, "video/mp4", "DATA"⟩
    ⟨200, { video0 with
      videoURL := some (getS3AssetURL cfg0 ("landscape" ++ "/" ++ ("v1" ++ ".mp4"))) }⟩
    rfl rfl rfl

/-- C10: on every successful run, each handler persists exactly the
fetched record with a single field changed: the thumbnail handler changes
only the thumbnail URL and the video handler only the video URL; every
other field of the record passed to the update equals the fetched one. -/
theorem single_field_update (cfg : Cfg) (env : Env) (req : UploadRequest) (st : St)
    (vid : String) (video : VideoRecord)
    (hvid : req.videoId = some vid)
    (hget : env.getVideo vid = some video) :
    (∀ resp, (handlerUploadThumbnail cfg env req st).1 = .ok resp →
      ∃ url, resp.body = { video with thumbnailURL := some url } ∧
        (handlerUploadThumbnail cfg env req st).2.dbUpdates = st.dbUpdates ++ [resp.body])
    ∧ (∀ resp, (handlerUploadVideo cfg env req st).1 = .ok resp →
      ∃ url, resp.body = { video with videoURL := some url } ∧
        (handlerUploadVideo cfg env req st).2.dbUpdates = st.dbUpdates ++ [resp.body]) := by
  constructor
  · intro resp hok
    obtain ⟨vid', userID, video', file, hvid', hauth, hget', howner, hfile, hsize,
      hempty, hupd, hresp, hst⟩ := thumb_ok_inv cfg env req st resp hok
    rw [hvid] at hvid'
    injection hvid' with hv
    subst hv
    rw [hget] at hget'
    injection hget' with hg
    subst hg
    subst hresp
    exact ⟨getAssetURL cfg (vid ++ mediaTypeToExt file.type), rfl, by rw [hst]⟩
  · intro resp hok
    obtain ⟨vid', userID, video', file, label, hvid', hauth, hget', howner, hfile, hsize,
      htype, hcl, hupd, hresp, hst⟩ := video_ok_inv cfg env req st resp hok
    rw [hvid] at hvid'
    injection hvid' with hv
    subst hv
    rw [hget] at hget'
    injection hget' with hg
    subst hg
    subst hresp
    exact ⟨getS3AssetURL cfg (label ++ "/" ++ (vid ++ ".mp4")), rfl, by rw [hst]⟩

/-- Witness for C10: a successful concrete thumbnail upload persists the
fetched record with only the thumbnail URL changed. -/
theorem single_field_update_witness :
    ∃ url,
      (⟨200, { video0 with
        thumbnailURL := some (getAssetURL cfg0 "v1.png") }⟩ : Response).body =
        { video0 with thumbnailURL := some url } ∧
      (handlerUploadThumbnail cfg0 goodEnv thumbReq st0).2.dbUpdates =
        st0.dbUpdates ++ [(⟨200, { video0 with
          thumbnailURL := some (getAssetURL cfg0 "v1.png") }⟩ : Response).body] :=
  (single_field_update cfg0 goodEnv thumbReq st0 "v1" video0 rfl rfl).1
    ⟨200, { video0 with thumbnailURL := some (getAssetURL cfg0 "v1.png") }⟩ rfl
